import Mathlib

/-!
Verification of `robustbench/model_zoo/architectures/Meansparse_wrn_70_16.py`.

The numeric parts (the `MeanSparse` layer) are embedded over an arbitrary
linear ordered field `α` with an explicit square-root parameter `sqrtFn`
standing for `torch.sqrt`; floating point is idealised as exact field
arithmetic.  A 4-D tensor of shape `(n, c, h, w)` is a function on the four
index sets.  The purely structural parts (residual blocks, block groups,
network wiring) are embedded with the framework primitives (`nn.Conv2d`,
`nn.BatchNorm2d`, padding, activation) as abstract operations, since those
are library calls, while the control- and dataflow of each `forward`
method is translated line by line from the source.
-/

/-- A 4-D tensor of shape `(n, c, h, w)` with entries in `α`. -/
def Tensor4 (α : Type) (n c h w : Nat) : Type :=
  Fin n → Fin c → Fin h → Fin w → α

/-- Model of `torch.mean(x, dim=(0, 2, 3))` at channel `j`: the mean of the
`n * h * w` entries of channel `j`. -/
def torchMean {α : Type} [LinearOrderedField α] {n c h w : Nat}
    (x : Tensor4 α n c h w) (j : Fin c) : α :=
  (∑ i : Fin n, ∑ p : Fin h, ∑ q : Fin w, x i j p q) / ((n * h * w : Nat) : α)

/-- Model of `torch.var(x, dim=(0, 2, 3))` at channel `j`: the unbiased sample
variance (Bessel correction, torch's default) of the `n * h * w` entries of
channel `j`. -/
def torchVar {α : Type} [LinearOrderedField α] {n c h w : Nat}
    (x : Tensor4 α n c h w) (j : Fin c) : α :=
  (∑ i : Fin n, ∑ p : Fin h, ∑ q : Fin w, (x i j p q - torchMean x j) ^ 2) /
    (((n * h * w : Nat) : α) - 1)

/-- The buffers registered by `MeanSparse.__init__` (source lines 86-98):
`running_mean`, `running_var` (length `C` vectors), `threshold`,
`flag_update_statistics` (an integer scalar tested for truthiness) and
`batch_num`. -/
structure MeanSparseState (α : Type) (C : Nat) where
  running_mean : Fin C → α
  running_var : Fin C → α
  threshold : α
  flag_update_statistics : Int
  batch_num : α

/-- Constructor `MeanSparse.__init__(in_planes)` (source lines 86-98): all buffers are
zero-initialised. -/
def MeanSparse.init (α : Type) [LinearOrderedField α] (in_planes : Nat) :
    MeanSparseState α in_planes :=
  ⟨fun _ => 0, fun _ => 0, 0, 0, 0⟩

/-- Method `MeanSparse.forward(input)` (source lines 100-127).  If
`flag_update_statistics` is truthy the per-channel mean and variance of the
input over dimensions `(0, 2, 3)`, each divided by `batch_num`, are added to
`running_mean` / `running_var`; then `bias` is the (updated) running mean
broadcast as `(1, C, 1, 1)` and `crop = threshold * sqrt(running_var)`
likewise; the output is the input itself when `threshold == 0`, else
`torch.where(|input - bias| < crop, bias, input)` elementwise.  Returns the
output together with the (possibly updated) buffer state. -/
def MeanSparse.forward {α : Type} [LinearOrderedField α] {n C h w : Nat}
    (sqrtFn : α → α) (s : MeanSparseState α C) (x : Tensor4 α n C h w) :
    Tensor4 α n C h w × MeanSparseState α C :=
  let s' : MeanSparseState α C :=
    if s.flag_update_statistics ≠ 0 then
      ⟨fun j => s.running_mean j + torchMean x j / s.batch_num,
       fun j => s.running_var j + torchVar x j / s.batch_num,
       s.threshold, s.flag_update_statistics, s.batch_num⟩
    else s
  let bias : Fin C → α := fun j => s'.running_mean j
  let crop : Fin C → α := fun j => s'.threshold * sqrtFn (s'.running_var j)
  let output : Tensor4 α n C h w :=
    if s'.threshold = 0 then x
    else fun i j p q =>
      if |x i j p q - bias j| < crop j then bias j else x i j p q
  (output, s')

/-- The buffer state returned by `MeanSparse.forward`: updated running
statistics when the calibration flag is truthy, the input state otherwise. -/
theorem MeanSparse.forward_snd {α : Type} [LinearOrderedField α] {n C h w : Nat}
    (sqrtFn : α → α) (s : MeanSparseState α C) (x : Tensor4 α n C h w) :
    (MeanSparse.forward sqrtFn s x).2 =
      if s.flag_update_statistics ≠ 0 then
        ⟨fun j => s.running_mean j + torchMean x j / s.batch_num,
         fun j => s.running_var j + torchVar x j / s.batch_num,
         s.threshold, s.flag_update_statistics, s.batch_num⟩
      else s := rfl

/-- Forward never changes the `threshold` buffer. -/
theorem MeanSparse.forward_snd_threshold {α : Type} [LinearOrderedField α] {n C h w : Nat}
    (sqrtFn : α → α) (s : MeanSparseState α C) (x : Tensor4 α n C h w) :
    (MeanSparse.forward sqrtFn s x).2.threshold = s.threshold := by
  rw [MeanSparse.forward_snd]
  split <;> rfl

/-- The tensor returned by `MeanSparse.forward`, expressed through the
returned buffer state (whose running statistics are the ones the `where`
actually reads). -/
theorem MeanSparse.forward_fst {α : Type} [LinearOrderedField α] {n C h w : Nat}
    (sqrtFn : α → α) (s : MeanSparseState α C) (x : Tensor4 α n C h w) :
    (MeanSparse.forward sqrtFn s x).1 =
      if s.threshold = 0 then x
      else fun i j p q =>
        if |x i j p q - (MeanSparse.forward sqrtFn s x).2.running_mean j| <
            s.threshold * sqrtFn ((MeanSparse.forward sqrtFn s x).2.running_var j) then
          (MeanSparse.forward sqrtFn s x).2.running_mean j
        else x i j p q := by
  unfold MeanSparse.forward
  by_cases hf : s.flag_update_statistics ≠ 0 <;> simp [hf]

/-- C1: for every 4-D input, `MeanSparse.forward` returns the input
unchanged when the `threshold` buffer is 0; when `threshold` is nonzero it
returns, elementwise, the per-channel `running_mean` (the buffer contents
as used, i.e. of the returned state) wherever
`|input - running_mean| < threshold * sqrt(running_var)`, broadcasting the
channel statistics over batch, height and width, and the original input
value elsewhere. -/
theorem meanSparse_forward_elementwise {α : Type} [LinearOrderedField α] {n C h w : Nat}
    (sqrtFn : α → α) (s : MeanSparseState α C) (x : Tensor4 α n C h w) :
    (s.threshold = 0 → (MeanSparse.forward sqrtFn s x).1 = x) ∧
    (s.threshold ≠ 0 → ∀ (i : Fin n) (j : Fin C) (p : Fin h) (q : Fin w),
      (MeanSparse.forward sqrtFn s x).1 i j p q =
        if |x i j p q - (MeanSparse.forward sqrtFn s x).2.running_mean j| <
            s.threshold * sqrtFn ((MeanSparse.forward sqrtFn s x).2.running_var j) then
          (MeanSparse.forward sqrtFn s x).2.running_mean j
        else x i j p q) := by
  constructor
  · intro h0
    rw [MeanSparse.forward_fst, if_pos h0]
  · intro hne i j p q
    rw [MeanSparse.forward_fst, if_neg hne]

/-- Witness for C1: with threshold 0 the constant-2 input is returned
unchanged; with threshold 1, mean 3 and variance 4, the entry 2 satisfies
`|2 - 3| < 1 * sqrt 4` and is replaced by the mean 3. -/
theorem meanSparse_forward_elementwise_witness :
    (MeanSparse.forward (fun a : ℚ => a)
        ⟨fun _ => 3, fun _ => 4, 0, 0, 1⟩
        (fun _ _ _ _ => (2 : ℚ) : Tensor4 ℚ 1 1 1 1)).1 =
      (fun _ _ _ _ => (2 : ℚ)) ∧
    (MeanSparse.forward (fun a : ℚ => a)
        ⟨fun _ => 3, fun _ => 4, 1, 0, 1⟩
        (fun _ _ _ _ => (2 : ℚ) : Tensor4 ℚ 1 1 1 1)).1 0 0 0 0 = 3 := by
  constructor
  · exact (meanSparse_forward_elementwise (fun a : ℚ => a)
      ⟨fun _ => 3, fun _ => 4, 0, 0, 1⟩ (fun _ _ _ _ => (2 : ℚ))).1 rfl
  · have h := (meanSparse_forward_elementwise (fun a : ℚ => a)
      ⟨fun _ => 3, fun _ => 4, 1, 0, 1⟩
      ((fun _ _ _ _ => (2 : ℚ)) : Tensor4 ℚ 1 1 1 1)).2
      (by norm_num) 0 0 0 0
    rw [h]
    norm_num [MeanSparse.forward]

/-- C2: `MeanSparse.forward` mutates its running statistics exactly when
the calibration flag is set: when `flag_update_statistics` is nonzero it
adds the per-channel mean (resp. unbiased variance) of the input over the
batch, height and width dimensions, divided by `batch_num`, to
`running_mean` (resp. `running_var`) and leaves the other three buffers
unchanged; when the flag is 0 the whole buffer state is unchanged. -/
theorem meanSparse_forward_statistics {α : Type} [LinearOrderedField α] {n C h w : Nat}
    (sqrtFn : α → α) (s : MeanSparseState α C) (x : Tensor4 α n C h w) :
    (s.flag_update_statistics ≠ 0 →
      (MeanSparse.forward sqrtFn s x).2 =
        ⟨fun j => s.running_mean j + torchMean x j / s.batch_num,
         fun j => s.running_var j + torchVar x j / s.batch_num,
         s.threshold, s.flag_update_statistics, s.batch_num⟩) ∧
    (s.flag_update_statistics = 0 → (MeanSparse.forward sqrtFn s x).2 = s) := by
  refine ⟨fun hf => ?_, fun hf => ?_⟩ <;>
    rw [MeanSparse.forward_snd] <;> simp [hf]

/-- Witness for C2: calibrating (`flag = 1`, `batch_num = 2`) on the
1×1×1×2 input `(2, 4)` moves `running_mean` from 1 to `1 + 3/2` and
`running_var` from 0 to `0 + 2/2 = 1`; with `flag = 0` the state is
untouched. -/
theorem meanSparse_forward_statistics_witness :
    ((MeanSparse.forward (fun a : ℚ => a)
        ⟨fun _ => 1, fun _ => 0, 0, 1, 2⟩
        (fun _ _ _ q => if q.val = 0 then 2 else 4 : Tensor4 ℚ 1 1 1 2)).2.running_mean 0
      = 5 / 2 ∧
     (MeanSparse.forward (fun a : ℚ => a)
        ⟨fun _ => 1, fun _ => 0, 0, 1, 2⟩
        (fun _ _ _ q => if q.val = 0 then 2 else 4 : Tensor4 ℚ 1 1 1 2)).2.running_var 0
      = 1) ∧
    (MeanSparse.forward (fun a : ℚ => a)
        ⟨fun _ => 1, fun _ => 0, 0, 0, 2⟩
        (fun _ _ _ q => if q.val = 0 then 2 else 4 : Tensor4 ℚ 1 1 1 2)).2 =
      ⟨fun _ => 1, fun _ => 0, 0, 0, 2⟩ := by
  refine ⟨?_, (meanSparse_forward_statistics (fun a : ℚ => a)
    ⟨fun _ => 1, fun _ => 0, 0, 0, 2⟩ (fun _ _ _ q => if q.val = 0 then 2 else 4)).2 rfl⟩
  have h := (meanSparse_forward_statistics (fun a : ℚ => a)
    ⟨fun _ => 1, fun _ => 0, 0, 1, 2⟩
    (fun _ _ _ q => if q.val = 0 then 2 else 4 : Tensor4 ℚ 1 1 1 2)).1 (by norm_num)
  rw [h]
  constructor
  · show (1 : ℚ) + torchMean (fun _ _ _ q => if q.val = 0 then 2 else 4 : Tensor4 ℚ 1 1 1 2) 0 / 2 = 5 / 2
    norm_num [torchMean, Fin.sum_univ_succ]
  · show (0 : ℚ) + torchVar (fun _ _ _ q => if q.val = 0 then 2 else 4 : Tensor4 ℚ 1 1 1 2) 0 / 2 = 1
    norm_num [torchVar, torchMean, Fin.sum_univ_succ]

/-- C5: a freshly constructed `MeanSparse(in_planes)` has all-zero
`running_mean` and `running_var`, `threshold = 0`,
`flag_update_statistics = 0` and `batch_num = 0`, and consequently its
`forward` is the identity on every input and returns the buffers
unchanged. -/
theorem meanSparse_init_identity {α : Type} [LinearOrderedField α]
    (in_planes : Nat) {n h w : Nat} :
    (MeanSparse.init α in_planes).running_mean = (fun _ => 0) ∧
    (MeanSparse.init α in_planes).running_var = (fun _ => 0) ∧
    (MeanSparse.init α in_planes).threshold = 0 ∧
    (MeanSparse.init α in_planes).flag_update_statistics = 0 ∧
    (MeanSparse.init α in_planes).batch_num = 0 ∧
    ∀ (sqrtFn : α → α) (x : Tensor4 α n in_planes h w),
      MeanSparse.forward sqrtFn (MeanSparse.init α in_planes) x =
        (x, MeanSparse.init α in_planes) := by
  refine ⟨rfl, rfl, rfl, rfl, rfl, fun sqrtFn x => ?_⟩
  simp [MeanSparse.forward, MeanSparse.init]

/-- Method `DMWideResNet.forward(x)` (source lines 288-297).  The framework
primitives — `F.pad`, `init_conv`, the stacked block groups (`self.layer`),
`batchnorm`, the activation, `avg_pool2d`, the flattening view and the
final linear layer — are abstract operations; the input normalisation
`(x - mean) / std` is concrete, and `meansparse_end` is the `MeanSparse`
layer between `batchnorm` and the activation, threading its buffer
state. -/
def DMWideResNet.forward {α : Type} [LinearOrderedField α]
    {n0 c0 h0 w0 n C h w : Nat} {I P Q Out : Type}
    (padding : Int) (padOp : Tensor4 α n0 c0 h0 w0 → Tensor4 α n0 c0 h0 w0)
    (meanB stdB : Fin c0 → α)
    (init_conv : Tensor4 α n0 c0 h0 w0 → I)
    (layer : I → Tensor4 α n C h w)
    (batchnorm : Tensor4 α n C h w → Tensor4 α n C h w)
    (sqrtFn : α → α) (meansparse_end : MeanSparseState α C)
    (relu : Tensor4 α n C h w → Tensor4 α n C h w)
    (avg_pool2d : Tensor4 α n C h w → P) (viewFlat : P → Q) (logits : Q → Out)
    (x : Tensor4 α n0 c0 h0 w0) : Out × MeanSparseState α C :=
  let x := if padding > 0 then padOp x else x
  let out : Tensor4 α n0 c0 h0 w0 := fun i j p q => (x i j p q - meanB j) / stdB j
  let out := init_conv out
  let out := layer out
  let msRes := MeanSparse.forward sqrtFn meansparse_end (batchnorm out)
  let out := relu msRes.1
  let out := avg_pool2d out
  let out := viewFlat out
  (logits out, msRes.2)

/-- C10: forward evaluation is deterministic — two runs of
`MeanSparse.forward` (and of `DMWideResNet.forward`) started from equal
buffer states on equal inputs produce equal outputs and equal final buffer
states. -/
theorem forward_deterministic {α : Type} [LinearOrderedField α]
    {n C h w n0 c0 h0 w0 : Nat} {I P Q Out : Type}
    (sqrtFn : α → α) (s₁ s₂ : MeanSparseState α C) (x₁ x₂ : Tensor4 α n C h w)
    (padding : Int) (padOp : Tensor4 α n0 c0 h0 w0 → Tensor4 α n0 c0 h0 w0)
    (meanB stdB : Fin c0 → α) (init_conv : Tensor4 α n0 c0 h0 w0 → I)
    (layer : I → Tensor4 α n C h w)
    (batchnorm relu : Tensor4 α n C h w → Tensor4 α n C h w)
    (t₁ t₂ : MeanSparseState α C)
    (avg_pool2d : Tensor4 α n C h w → P) (viewFlat : P → Q) (logits : Q → Out)
    (y₁ y₂ : Tensor4 α n0 c0 h0 w0)
    (hs : s₁ = s₂) (hx : x₁ = x₂) (ht : t₁ = t₂) (hy : y₁ = y₂) :
    MeanSparse.forward sqrtFn s₁ x₁ = MeanSparse.forward sqrtFn s₂ x₂ ∧
    DMWideResNet.forward padding padOp meanB stdB init_conv layer batchnorm
        sqrtFn t₁ relu avg_pool2d viewFlat logits y₁ =
      DMWideResNet.forward padding padOp meanB stdB init_conv layer batchnorm
        sqrtFn t₂ relu avg_pool2d viewFlat logits y₂ := by
  subst hs
  subst hx
  subst ht
  subst hy
  exact ⟨rfl, rfl⟩

/-- Witness for C10 at an all-concrete instance over `ℚ` with identity
framework primitives. -/
theorem forward_deterministic_witness :
    MeanSparse.forward (fun a : ℚ => a)
        ⟨fun _ => 1, fun _ => 2, 3, 1, 4⟩
        (fun _ _ _ _ => (5 : ℚ) : Tensor4 ℚ 1 1 1 1) =
      MeanSparse.forward (fun a : ℚ => a)
        ⟨fun _ => 1, fun _ => 2, 3, 1, 4⟩
        (fun _ _ _ _ => (5 : ℚ) : Tensor4 ℚ 1 1 1 1) ∧
    DMWideResNet.forward 1 id (fun _ => 0) (fun _ => 1) id id id
        (fun a : ℚ => a) ⟨fun _ => 1, fun _ => 2, 3, 1, 4⟩ id id id id
        (fun _ _ _ _ => (5 : ℚ) : Tensor4 ℚ 1 1 1 1) =
      DMWideResNet.forward 1 id (fun _ => 0) (fun _ => 1) id id id
        (fun a : ℚ => a) ⟨fun _ => 1, fun _ => 2, 3, 1, 4⟩ id id id id
        (fun _ _ _ _ => (5 : ℚ) : Tensor4 ℚ 1 1 1 1) :=
  forward_deterministic (fun a : ℚ => a)
    ⟨fun _ => 1, fun _ => 2, 3, 1, 4⟩ ⟨fun _ => 1, fun _ => 2, 3, 1, 4⟩
    (fun _ _ _ _ => (5 : ℚ)) (fun _ _ _ _ => (5 : ℚ))
    1 id (fun _ => 0) (fun _ => 1) id id id id
    ⟨fun _ => 1, fun _ => 2, 3, 1, 4⟩ ⟨fun _ => 1, fun _ => 2, 3, 1, 4⟩
    id id id
    (fun _ _ _ _ => (5 : ℚ)) (fun _ _ _ _ => (5 : ℚ))
    rfl rfl rfl rfl

/-- The scalar trace of the active `MeanSparse.forward`: the value of the
output entry of a 1×1×1×1 input tensor as a function of the input entry.
Gradient claims about the operator are statements about the derivative of
this map over `ℝ` with `torch.sqrt` as `Real.sqrt`. -/
def meanSparseScalar {α : Type} [LinearOrderedField α] (sqrtFn : α → α)
    (s : MeanSparseState α 1) (t : α) : α :=
  (MeanSparse.forward sqrtFn s (fun _ _ _ _ => t : Tensor4 α 1 1 1 1)).1 0 0 0 0

/-- Evaluation of the scalar trace outside calibration. -/
theorem meanSparseScalar_eval {α : Type} [LinearOrderedField α] (sqrtFn : α → α)
    (s : MeanSparseState α 1)
    (hflag : s.flag_update_statistics = 0) (hthr : s.threshold ≠ 0) (t : α) :
    meanSparseScalar sqrtFn s t =
      if |t - s.running_mean 0| < s.threshold * sqrtFn (s.running_var 0) then
        s.running_mean 0
      else t := by
  unfold meanSparseScalar MeanSparse.forward
  simp [hflag, hthr]

/-- For any buffer state outside calibration (`flag_update_statistics = 0`)
with nonzero threshold: on the open region
`|t - running_mean| < threshold * sqrt(running_var)` the active operator is
constantly the mean, so its derivative there is 0. -/
theorem meanSparseScalar_deriv_inside (s : MeanSparseState ℝ 1)
    (hflag : s.flag_update_statistics = 0) (hthr : s.threshold ≠ 0) (t : ℝ)
    (ht : |t - s.running_mean 0| < s.threshold * Real.sqrt (s.running_var 0)) :
    HasDerivAt (meanSparseScalar Real.sqrt s) 0 t := by
  have hopen : IsOpen {u : ℝ |
      |u - s.running_mean 0| < s.threshold * Real.sqrt (s.running_var 0)} :=
    isOpen_lt (continuous_id.sub continuous_const).abs continuous_const
  have hev : meanSparseScalar Real.sqrt s
      =ᶠ[nhds t] (fun _ => s.running_mean 0) := by
    refine Filter.eventuallyEq_of_mem (hopen.mem_nhds ht) (fun u hu => ?_)
    rw [meanSparseScalar_eval _ _ hflag hthr]
    exact if_pos hu
  exact (hasDerivAt_const t (s.running_mean 0)).congr_of_eventuallyEq hev

/-- For any buffer state outside calibration with nonzero threshold: on
the open region `threshold * sqrt(running_var) < |t - running_mean|` the
active operator is the identity, so its derivative there is 1. -/
theorem meanSparseScalar_deriv_outside (s : MeanSparseState ℝ 1)
    (hflag : s.flag_update_statistics = 0) (hthr : s.threshold ≠ 0) (t : ℝ)
    (ht : s.threshold * Real.sqrt (s.running_var 0) < |t - s.running_mean 0|) :
    HasDerivAt (meanSparseScalar Real.sqrt s) 1 t := by
  have hopen : IsOpen {u : ℝ |
      s.threshold * Real.sqrt (s.running_var 0) < |u - s.running_mean 0|} :=
    isOpen_lt continuous_const (continuous_id.sub continuous_const).abs
  have hev : meanSparseScalar Real.sqrt s =ᶠ[nhds t] (fun u => u) := by
    refine Filter.eventuallyEq_of_mem (hopen.mem_nhds ht) (fun u hu => ?_)
    rw [meanSparseScalar_eval _ _ hflag hthr]
    exact if_neg (not_lt.mpr (le_of_lt hu))
  exact (hasDerivAt_id t).congr_of_eventuallyEq hev

/-- Counterexample for C3: the claim that the operator propagates the
incoming gradient unchanged (i.e. behaves as the identity, derivative 1,
for gradient propagation) is false for the active `MeanSparse.forward`:
with `running_mean = 0`, `running_var = 1`, `threshold = 1` the operator is
constant near the input 0 (it returns the mean there), so it does not have
derivative 1 at 0.  The custom autograd function `MeanSparseFunction2D`
that would force this identity backward is commented out in the source. -/
theorem meanSparse_backward_not_identity :
    ¬ HasDerivAt (meanSparseScalar Real.sqrt ⟨fun _ => 0, fun _ => 1, 1, 0, 1⟩) 1 0 := by
  intro h
  have h0 : HasDerivAt (meanSparseScalar Real.sqrt ⟨fun _ => 0, fun _ => 1, 1, 0, 1⟩) 0 0 :=
    meanSparseScalar_deriv_inside ⟨fun _ => 0, fun _ => 1, 1, 0, 1⟩ rfl one_ne_zero 0
      (by show |(0 : ℝ) - 0| < 1 * Real.sqrt 1
          rw [Real.sqrt_one]
          norm_num)
  have : (1 : ℝ) = 0 := h.unique h0
  norm_num at this

/-- C3 (amended): the custom autograd operator `MeanSparseFunction2D`,
which would force an identity backward pass, is commented out in the
source; the active `MeanSparse.forward` is plain `torch.where`.  Its
gradient with respect to the input (the derivative of the scalar trace)
equals the incoming gradient only where the input value is kept: it is 1
everywhere when `threshold = 0`, while for every buffer state outside
calibration (`flag_update_statistics = 0`) with nonzero threshold it is 0
at every input strictly inside the replaced region
`|t - running_mean| < threshold * sqrt(running_var)` and 1 at every input
strictly outside it. -/
theorem meanSparse_backward_masked :
    (∀ (s : MeanSparseState ℝ 1), s.threshold = 0 → ∀ t : ℝ,
        HasDerivAt (meanSparseScalar Real.sqrt s) 1 t) ∧
    (∀ (s : MeanSparseState ℝ 1), s.flag_update_statistics = 0 →
      s.threshold ≠ 0 → ∀ t : ℝ,
      (|t - s.running_mean 0| < s.threshold * Real.sqrt (s.running_var 0) →
        HasDerivAt (meanSparseScalar Real.sqrt s) 0 t) ∧
      (s.threshold * Real.sqrt (s.running_var 0) < |t - s.running_mean 0| →
        HasDerivAt (meanSparseScalar Real.sqrt s) 1 t)) := by
  refine ⟨fun s h0 t => ?_, fun s hflag hthr t =>
    ⟨meanSparseScalar_deriv_inside s hflag hthr t,
     meanSparseScalar_deriv_outside s hflag hthr t⟩⟩
  have hid : meanSparseScalar Real.sqrt s = fun u => u := by
    funext u
    unfold meanSparseScalar MeanSparse.forward
    by_cases hf : s.flag_update_statistics ≠ 0 <;> simp [hf, h0]
  rw [hid]
  exact hasDerivAt_id t

/-- Witness for the amended C3 at concrete points: derivative 1 at 2 for a
threshold-0 state; for mean 3, variance 1, threshold 2 (crop 2), derivative
0 at 4 (inside the replaced region, `|4 - 3| < 2`) and derivative 1 at 6
(outside it, `2 < |6 - 3|`). -/
theorem meanSparse_backward_masked_witness :
    HasDerivAt (meanSparseScalar Real.sqrt ⟨fun _ => 5, fun _ => 7, 0, 0, 1⟩) 1 2 ∧
    HasDerivAt (meanSparseScalar Real.sqrt ⟨fun _ => 3, fun _ => 1, 2, 0, 1⟩) 0 4 ∧
    HasDerivAt (meanSparseScalar Real.sqrt ⟨fun _ => 3, fun _ => 1, 2, 0, 1⟩) 1 6 := by
  refine ⟨meanSparse_backward_masked.1 ⟨fun _ => 5, fun _ => 7, 0, 0, 1⟩ rfl 2, ?_, ?_⟩
  · exact (meanSparse_backward_masked.2 ⟨fun _ => 3, fun _ => 1, 2, 0, 1⟩ rfl
      two_ne_zero 4).1
      (by show |(4 : ℝ) - 3| < 2 * Real.sqrt 1
          rw [Real.sqrt_one]
          norm_num)
  · exact (meanSparse_backward_masked.2 ⟨fun _ => 3, fun _ => 1, 2, 0, 1⟩ rfl
      two_ne_zero 6).2
      (by show 2 * Real.sqrt 1 < |(6 : ℝ) - 3|
          rw [Real.sqrt_one]
          norm_num)

/-- The submodules created by `_Block.__init__` (source lines 155-192), as
abstract operations on activation values: `batchnorm_0/1` (`nn.BatchNorm2d`)
and `conv_0/1` (`nn.Conv2d`) are framework layers, `meansparse_0/1/2` the
three `MeanSparse` modules, `relu_0/1` the two activation instances,
`shortcut` the 1x1 shortcut convolution; `pad` is `F.pad` applied with four
pad widths and `add` is `torch.add`. -/
structure BlockOps (V : Type) where
  batchnorm_0 : V → V
  meansparse_0 : V → V
  relu_0 : V → V
  conv_0 : V → V
  batchnorm_1 : V → V
  meansparse_1 : V → V
  relu_1 : V → V
  conv_1 : V → V
  shortcut : V → V
  meansparse_2 : V → V
  pad : Nat → Nat → Nat → Nat → V → V
  add : V → V → V

/-- Method `_Block.forward(x)` (source lines 194-211), translated line by
line: when `has_shortcut` the local `x` is rebound to the pre-activation
`relu_0(meansparse_0(batchnorm_0(x)))`, else that value is bound to `out`;
`v` is `x if has_shortcut else out`; `v` is padded by `(1,1,1,1)` for
stride 1 and `(0,1,0,1)` for stride 2, any other stride raising
`ValueError('Unsupported `stride`.')`; then `conv_0`,
`relu_1(meansparse_1(batchnorm_1(.)))`, `conv_1`, and the residual sum
`torch.add(shortcut(x) if has_shortcut else x, out)` followed by
`meansparse_2`. -/
def _Block.forward {V : Type} (ops : BlockOps V) (has_shortcut : Bool)
    (stride : Int) (x : V) : Except String V := do
  let pre := ops.relu_0 (ops.meansparse_0 (ops.batchnorm_0 x))
  let x' := if has_shortcut then pre else x
  let v := if has_shortcut then x' else pre
  let v ← if stride = 1 then pure (ops.pad 1 1 1 1 v)
          else if stride = 2 then pure (ops.pad 0 1 0 1 v)
          else Except.error "Unsupported `stride`."
  let out := ops.conv_0 v
  let out := ops.relu_1 (ops.meansparse_1 (ops.batchnorm_1 out))
  let out := ops.conv_1 out
  let out := ops.add (if has_shortcut then ops.shortcut x' else x') out
  pure (ops.meansparse_2 out)

/-- The submodules created by `_PreActBlock.__init__` (source lines
303-319): `batchnorm_0/1`, `relu_0/1`, `conv_2d_1/2` and the shortcut
convolution; `pad` is `F.pad` and `add` the tensor addition of
`out + shortcut`.  Note the class creates no `MeanSparse` module. -/
structure PreActBlockOps (V : Type) where
  batchnorm_0 : V → V
  relu_0 : V → V
  conv_2d_1 : V → V
  batchnorm_1 : V → V
  relu_1 : V → V
  conv_2d_2 : V → V
  shortcut : V → V
  pad : Nat → Nat → Nat → Nat → V → V
  add : V → V → V

/-- Method `_PreActBlock._pad(x)` (source lines 321-328): pad by
`(1,1,1,1)` for stride 1, `(0,1,0,1)` for stride 2, otherwise raise
`ValueError('Unsupported `stride`.')`. -/
def _PreActBlock._pad {V : Type} (ops : PreActBlockOps V) (stride : Int)
    (x : V) : Except String V :=
  if stride = 1 then Except.ok (ops.pad 1 1 1 1 x)
  else if stride = 2 then Except.ok (ops.pad 0 1 0 1 x)
  else Except.error "Unsupported `stride`."

/-- Method `_PreActBlock.forward(x)` (source lines 330-335):
`out = relu_0(batchnorm_0(x))`; the shortcut branch is
`shortcut(_pad(x))` when `has_shortcut` else `x`; then
`conv_2d_1(_pad(out))`, `conv_2d_2(relu_1(batchnorm_1(out)))` and the sum
`out + shortcut`. -/
def _PreActBlock.forward {V : Type} (ops : PreActBlockOps V)
    (has_shortcut : Bool) (stride : Int) (x : V) : Except String V := do
  let out := ops.relu_0 (ops.batchnorm_0 x)
  let shortcutV ←
    if has_shortcut then do
      let px ← _PreActBlock._pad ops stride x
      pure (ops.shortcut px)
    else pure x
  let po ← _PreActBlock._pad ops stride out
  let out := ops.conv_2d_1 po
  let out := ops.conv_2d_2 (ops.relu_1 (ops.batchnorm_1 out))
  pure (ops.add out shortcutV)

/-- Tags for the kinds of submodule applied during a forward pass; a
forward evaluated over `List LayerTag` records which operations touch the
activation. -/
inductive LayerTag where
  | batchnorm : LayerTag
  | meansparse : LayerTag
  | relu : LayerTag
  | conv : LayerTag
  | padT : LayerTag
  | addT : LayerTag
deriving DecidableEq

/-- Instrumented `_Block` submodules over traces: each operation records
its tag (the shortcut is a `nn.Conv2d`, hence `conv`). -/
def _Block.traceOps : BlockOps (List LayerTag) :=
  ⟨fun t => .batchnorm :: t, fun t => .meansparse :: t, fun t => .relu :: t,
   fun t => .conv :: t, fun t => .batchnorm :: t, fun t => .meansparse :: t,
   fun t => .relu :: t, fun t => .conv :: t, fun t => .conv :: t,
   fun t => .meansparse :: t, fun _ _ _ _ t => .padT :: t,
   fun a b => .addT :: (a ++ b)⟩

/-- Instrumented `_PreActBlock` submodules over traces. -/
def _PreActBlock.traceOps : PreActBlockOps (List LayerTag) :=
  ⟨fun t => .batchnorm :: t, fun t => .relu :: t, fun t => .conv :: t,
   fun t => .batchnorm :: t, fun t => .relu :: t, fun t => .conv :: t,
   fun t => .conv :: t, fun _ _ _ _ t => .padT :: t,
   fun a b => .addT :: (a ++ b)⟩

deriving instance DecidableEq for Except

/-- Counterexample for C4: the pre-activation block does NOT embed the
sparsification transform — `_PreActBlock.__init__` creates no `MeanSparse`
module and its `forward` applies none: the instrumented forward trace
contains zero `meansparse` applications (for either shortcut
configuration and both supported strides). -/
theorem preActBlock_applies_no_meansparse :
    Except.map (List.count LayerTag.meansparse)
      (_PreActBlock.forward _PreActBlock.traceOps true 1 []) = Except.ok 0 ∧
    Except.map (List.count LayerTag.meansparse)
      (_PreActBlock.forward _PreActBlock.traceOps false 1 []) = Except.ok 0 ∧
    Except.map (List.count LayerTag.meansparse)
      (_PreActBlock.forward _PreActBlock.traceOps true 2 []) = Except.ok 0 ∧
    Except.map (List.count LayerTag.meansparse)
      (_PreActBlock.forward _PreActBlock.traceOps false 2 []) = Except.ok 0 := by
  decide

/-- C4 (amended): of the two residual block variants only the WideResNet
`_Block` embeds the sparsification transform — `MeanSparse` applications
occur in its instrumented forward trace for every shortcut configuration
and supported stride — while `_PreActBlock.forward` applies it zero
times. -/
theorem block_meansparse_usage :
    (Except.map (fun l => l.contains LayerTag.meansparse)
      (_Block.forward _Block.traceOps true 1 []) = Except.ok true ∧
     Except.map (fun l => l.contains LayerTag.meansparse)
      (_Block.forward _Block.traceOps false 1 []) = Except.ok true ∧
     Except.map (fun l => l.contains LayerTag.meansparse)
      (_Block.forward _Block.traceOps true 2 []) = Except.ok true ∧
     Except.map (fun l => l.contains LayerTag.meansparse)
      (_Block.forward _Block.traceOps false 2 []) = Except.ok true) ∧
    (Except.map (List.count LayerTag.meansparse)
      (_PreActBlock.forward _PreActBlock.traceOps true 1 []) = Except.ok 0 ∧
     Except.map (List.count LayerTag.meansparse)
      (_PreActBlock.forward _PreActBlock.traceOps false 1 []) = Except.ok 0 ∧
     Except.map (List.count LayerTag.meansparse)
      (_PreActBlock.forward _PreActBlock.traceOps true 2 []) = Except.ok 0 ∧
     Except.map (List.count LayerTag.meansparse)
      (_PreActBlock.forward _PreActBlock.traceOps false 2 []) = Except.ok 0) := by
  decide

/-- The pre-activation `relu_0(meansparse_0(batchnorm_0(x)))` computed at
the top of `_Block.forward` (source lines 195-198). -/
def _Block.preAct {V : Type} (ops : BlockOps V) (x : V) : V :=
  ops.relu_0 (ops.meansparse_0 (ops.batchnorm_0 x))

/-- The residual branch of `_Block.forward` (source lines 206-208) applied
to the padded pre-activation: `conv_0`, then
`relu_1(meansparse_1(batchnorm_1(.)))`, then `conv_1`; `a b c d` are the
`F.pad` widths chosen by the stride. -/
def _Block.residual {V : Type} (ops : BlockOps V) (a b c d : Nat) (v : V) : V :=
  ops.conv_1 (ops.relu_1 (ops.meansparse_1 (ops.batchnorm_1
    (ops.conv_0 (ops.pad a b c d v)))))

/-- C6: for every stride other than 1 and 2, `_Block.forward` and
`_PreActBlock._pad` raise `ValueError('Unsupported `stride`.')`; for
stride 1 the tensor fed to the 3x3 convolution is padded by `(1,1,1,1)`
and for stride 2 by `(0,1,0,1)` (shown by the full unfoldings of
`_Block.forward` and of `_PreActBlock._pad` for strides 1 and 2). -/
theorem stride_validation {V : Type} (ops : BlockOps V) (ops' : PreActBlockOps V)
    (hs : Bool) (x y : V) (stride : Int)
    (h1 : stride ≠ 1) (h2 : stride ≠ 2) :
    _Block.forward ops hs stride x = Except.error "Unsupported `stride`." ∧
    _PreActBlock._pad ops' stride y = Except.error "Unsupported `stride`." ∧
    _Block.forward ops hs 1 x =
      Except.ok (ops.meansparse_2 (ops.add
        (if hs then ops.shortcut (_Block.preAct ops x) else x)
        (_Block.residual ops 1 1 1 1 (_Block.preAct ops x)))) ∧
    _Block.forward ops hs 2 x =
      Except.ok (ops.meansparse_2 (ops.add
        (if hs then ops.shortcut (_Block.preAct ops x) else x)
        (_Block.residual ops 0 1 0 1 (_Block.preAct ops x)))) ∧
    _PreActBlock._pad ops' 1 y = Except.ok (ops'.pad 1 1 1 1 y) ∧
    _PreActBlock._pad ops' 2 y = Except.ok (ops'.pad 0 1 0 1 y) := by
  refine ⟨?_, ?_, ?_, ?_, ?_, ?_⟩
  · simp [_Block.forward, h1, h2]
  · simp [_PreActBlock._pad, h1, h2]
  · cases hs
    all_goals
      simp only [_Block.forward, _Block.preAct, _Block.residual]
      rfl
  · cases hs
    all_goals
      simp only [_Block.forward, _Block.preAct, _Block.residual]
      rfl
  · simp [_PreActBlock._pad]
  · simp [_PreActBlock._pad]

/-- Witness for C6 at stride 3 with trivial operations over `Nat`. -/
theorem stride_validation_witness :
    _Block.forward
        (⟨id, id, id, id, id, id, id, id, id, id,
          fun _ _ _ _ v => v, fun a b => a + b⟩ : BlockOps Nat) true 3 0 =
      Except.error "Unsupported `stride`." ∧
    _PreActBlock._pad
        (⟨id, id, id, id, id, id, id,
          fun _ _ _ _ v => v, fun a b => a + b⟩ : PreActBlockOps Nat) 3 0 =
      Except.error "Unsupported `stride`." := by
  have h := stride_validation
    (⟨id, id, id, id, id, id, id, id, id, id,
      fun _ _ _ _ v => v, fun a b => a + b⟩ : BlockOps Nat)
    (⟨id, id, id, id, id, id, id,
      fun _ _ _ _ v => v, fun a b => a + b⟩ : PreActBlockOps Nat)
    true 0 0 3 (by decide) (by decide)
  exact ⟨h.1, h.2.1⟩

/-- C8: in `_Block.forward` (stride 1 shown; the shortcut wiring does not
depend on the stride) the shortcut convolution is applied to the
pre-activated input `relu_0(meansparse_0(batchnorm_0(x)))` when
`has_shortcut`, the raw input is added unchanged when not, and in both
cases the sum goes through the final `meansparse_2`; moreover the
instrumented trace shows the result differs from the variant that would
apply the shortcut to the raw input. -/
theorem block_shortcut_preactivated {V : Type} (ops : BlockOps V) (x : V) :
    _Block.forward ops true 1 x =
      Except.ok (ops.meansparse_2 (ops.add
        (ops.shortcut (_Block.preAct ops x))
        (_Block.residual ops 1 1 1 1 (_Block.preAct ops x)))) ∧
    _Block.forward ops false 1 x =
      Except.ok (ops.meansparse_2 (ops.add x
        (_Block.residual ops 1 1 1 1 (_Block.preAct ops x)))) ∧
    _Block.forward _Block.traceOps true 1 [] ≠
      Except.ok (_Block.traceOps.meansparse_2 (_Block.traceOps.add
        (_Block.traceOps.shortcut [])
        (_Block.residual _Block.traceOps 1 1 1 1
          (_Block.preAct _Block.traceOps [])))) := by
  refine ⟨?_, ?_, ?_⟩
  · simp only [_Block.forward, _Block.preAct, _Block.residual]
    rfl
  · simp only [_Block.forward, _Block.preAct, _Block.residual]
    rfl
  · decide

/-- Configuration check in `DMWideResNet.__init__` (source lines 258-259):
`assert (depth - 4) % 6 == 0`, then `num_blocks = (depth - 4) // 6`.
Python `%` and `//` are floor-based; the divisor 6 is positive, so Lean's
`Int` `%` (euclidean) and `/` agree with Python here. -/
def DMWideResNet.numBlocks (depth : Int) : Except String Int :=
  if (depth - 4) % 6 = 0 then Except.ok ((depth - 4) / 6)
  else Except.error "AssertionError"

/-- Configuration check in `DMPreActResNet.__init__` (source lines
352-370): any nonzero width raises `ValueError('Unsupported `width`.')`;
then depth 18 gives block counts `(2, 2, 2, 2)`, depth 34 gives
`(3, 4, 6, 3)`, and any other depth raises
`ValueError('Unsupported `depth`.')`. -/
def DMPreActResNet.numBlocks (width depth : Int) :
    Except String (Nat × Nat × Nat × Nat) :=
  if width ≠ 0 then Except.error "Unsupported `width`."
  else if depth = 18 then Except.ok (2, 2, 2, 2)
  else if depth = 34 then Except.ok (3, 4, 6, 3)
  else Except.error "Unsupported `depth`."

/-- C7: architecture configuration is validated at construction:
`DMPreActResNet.__init__` raises `ValueError` for every nonzero width and
for every depth other than 18 or 34, with depth 18 yielding block counts
`(2,2,2,2)` and depth 34 yielding `(3,4,6,3)`; `DMWideResNet.__init__`
fails its assertion whenever `(depth - 4) % 6 ≠ 0` and otherwise builds
`(depth - 4) // 6` blocks per group. -/
theorem architecture_validation (width depth : Int) :
    (width ≠ 0 →
      DMPreActResNet.numBlocks width depth = Except.error "Unsupported `width`.") ∧
    (depth ≠ 18 → depth ≠ 34 →
      ∃ e, DMPreActResNet.numBlocks width depth = Except.error e) ∧
    DMPreActResNet.numBlocks 0 18 = Except.ok (2, 2, 2, 2) ∧
    DMPreActResNet.numBlocks 0 34 = Except.ok (3, 4, 6, 3) ∧
    ((depth - 4) % 6 ≠ 0 →
      DMWideResNet.numBlocks depth = Except.error "AssertionError") ∧
    ((depth - 4) % 6 = 0 →
      DMWideResNet.numBlocks depth = Except.ok ((depth - 4) / 6)) := by
  refine ⟨fun hw => ?_, fun h18 h34 => ?_, by decide, by decide,
    fun hd => ?_, fun hd => ?_⟩
  · simp [DMPreActResNet.numBlocks, hw]
  · rcases eq_or_ne width 0 with hw | hw
    · exact ⟨"Unsupported `depth`.",
        by simp [DMPreActResNet.numBlocks, hw, h18, h34]⟩
    · exact ⟨"Unsupported `width`.", by simp [DMPreActResNet.numBlocks, hw]⟩
  · simp [DMWideResNet.numBlocks, hd]
  · simp [DMWideResNet.numBlocks, hd]

/-- Witness for C7: width 5 is rejected, depth 20 fails the WideResNet
divisibility assertion, depth 28 yields `(28 - 4) // 6 = 4` blocks per
group. -/
theorem architecture_validation_witness :
    DMPreActResNet.numBlocks 5 20 = Except.error "Unsupported `width`." ∧
    DMWideResNet.numBlocks 20 = Except.error "AssertionError" ∧
    DMWideResNet.numBlocks 28 = Except.ok 4 := by
  refine ⟨(architecture_validation 5 20).1 (by decide),
    (architecture_validation 5 20).2.2.2.2.1 (by decide), ?_⟩
  have h := (architecture_validation 5 28).2.2.2.2.2 (by decide)
  rw [h]
  decide

/-- Python truthiness idiom `cond and a or b` on integers (source lines
227-229 and 384): when `cond` holds this evaluates to `a` if `a` is truthy
(nonzero) and to `b` otherwise; when `cond` fails it evaluates to `b`. -/
def pyAndOr (cond : Bool) (a b : Int) : Int :=
  if cond then (if a ≠ 0 then a else b) else b

/-- Constructor arguments of the blocks built by `_BlockGroup.__init__`
(source lines 217-231): block `i` is
`_Block(i == 0 and in_planes or out_planes, out_planes,
i == 0 and stride or 1)`; the list records
`(in_planes, out_planes, stride)` per block in construction order. -/
def _BlockGroup.blockSpecs (num_blocks : Nat)
    (in_planes out_planes stride : Int) : List (Int × Int × Int) :=
  (List.range num_blocks).map fun i =>
    (pyAndOr (i == 0) in_planes out_planes, out_planes,
     pyAndOr (i == 0) stride 1)

/-- Constructor arguments of the blocks built by
`DMPreActResNet._make_layer` (source lines 379-388): the stride list is
`[stride] + [1] * (num_blocks - 1)` and block `i` is
`_PreActBlock(i == 0 and in_planes or out_planes, out_planes,
stride_i)`. -/
def DMPreActResNet.layerSpecs (in_planes out_planes : Int)
    (num_blocks : Nat) (stride : Int) : List (Int × Int × Int) :=
  (([stride] ++ List.replicate (num_blocks - 1) 1).enum).map
    fun (p : Nat × Int) =>
      (pyAndOr (p.1 == 0) in_planes out_planes, out_planes, p.2)

/-- Model of `nn.Sequential` (source lines 231-234): the blocks are
applied left to right in construction order. -/
def nnSequential {V : Type} (blocks : List (V → V)) (x : V) : V :=
  blocks.foldl (fun a f => f a) x

/-- Counterexample for C9: the first block does NOT always receive the
given `in_planes` and `stride` — the Python `and/or` idiom substitutes
`out_planes` for a zero `in_planes` (and 1 for a zero stride in
`_BlockGroup`): with `in_planes = 0`, `out_planes = 5`, `stride = 3` the
single block is constructed as `(5, 5, 3)`, not `(0, 5, 3)`. -/
theorem blockGroup_first_spec_cex :
    _BlockGroup.blockSpecs 1 0 5 3 ≠ [(0, 5, 3)] ∧
    _BlockGroup.blockSpecs 1 0 5 3 = [(5, 5, 3)] ∧
    _BlockGroup.blockSpecs 1 7 5 0 = [(7, 5, 1)] := by
  refine ⟨?_, by decide, by decide⟩
  decide

/-- Mapping a function over the tail indices `1..k` of `List.range (k+1)`
yields a constant list when the function is constant on positive
indices. -/
theorem map_comp_succ_const {β : Type} (g : Nat → β) (c : β)
    (h : ∀ i : Nat, g (i + 1) = c) (k : Nat) :
    (List.range k).map (g ∘ Nat.succ) = List.replicate k c := by
  induction k with
  | zero => rfl
  | succ n ih =>
    rw [List.range_succ, List.map_append, ih, List.map_singleton]
    have hc : (g ∘ Nat.succ) n = c := h n
    rw [hc, ← List.replicate_succ']

/-- Mapping the `_make_layer` constructor-argument function over an
enumeration starting at a positive index ignores `in_planes`. -/
theorem enumFrom_map_of_pos (in_planes out_planes : Int) (l : List Int) :
    ∀ s : Nat, (l.enumFrom (s + 1)).map
      (fun (p : Nat × Int) =>
        (pyAndOr (p.1 == 0) in_planes out_planes, out_planes, p.2)) =
      l.map (fun st => ((out_planes, out_planes, st) : Int × Int × Int)) := by
  induction l with
  | nil => intro s; rfl
  | cons a t ih =>
    intro s
    show ((s + 1, a) :: t.enumFrom (s + 2)).map _ = _
    rw [List.map_cons, List.map_cons]
    refine congrArg₂ List.cons ?_ (ih (s + 1))
    simp [pyAndOr]

/-- C9 (amended): for `num_blocks ≥ 1` and nonzero `in_planes`, only the
first block is constructed with the given `in_planes`, every subsequent
block with `out_planes` and stride 1, and `nn.Sequential` composes the
blocks in construction order; in `_BlockGroup` the first block gets the
given stride provided it is nonzero (the Python `and/or` idiom replaces a
zero `in_planes` by `out_planes` and, in `_BlockGroup` only, a zero
stride by 1), while `_make_layer` passes the given stride through
unconditionally. -/
theorem blockGroup_specs (num_blocks : Nat) (in_planes out_planes stride : Int)
    (hn : 1 ≤ num_blocks) (hin : in_planes ≠ 0) :
    (stride ≠ 0 →
      _BlockGroup.blockSpecs num_blocks in_planes out_planes stride =
        (in_planes, out_planes, stride) ::
          List.replicate (num_blocks - 1) (out_planes, out_planes, 1)) ∧
    DMPreActResNet.layerSpecs in_planes out_planes num_blocks stride =
      (in_planes, out_planes, stride) ::
        List.replicate (num_blocks - 1) (out_planes, out_planes, 1) ∧
    ∀ (V : Type) (f : V → V) (fs : List (V → V)) (x : V),
      nnSequential (f :: fs) x = nnSequential fs (f x) := by
  obtain ⟨k, rfl⟩ : ∃ k, num_blocks = k + 1 :=
    ⟨num_blocks - 1, (Nat.succ_pred_eq_of_pos hn).symm⟩
  refine ⟨fun hstride => ?_, ?_, fun V f fs x => rfl⟩
  · unfold _BlockGroup.blockSpecs
    rw [List.range_succ_eq_map, List.map_cons, List.map_map]
    refine congrArg₂ List.cons ?_
      (map_comp_succ_const _ _ (fun i => by simp [pyAndOr]) k)
    simp [pyAndOr, hin, hstride]
  · unfold DMPreActResNet.layerSpecs
    show (((0, stride) :: (List.replicate k (1 : Int)).enumFrom 1).map _) = _
    rw [List.map_cons]
    have htail : ((List.replicate k (1 : Int)).enumFrom 1).map
        (fun (p : Nat × Int) =>
          (pyAndOr (p.1 == 0) in_planes out_planes, out_planes, p.2)) =
        List.replicate (k + 1 - 1) ((out_planes, out_planes, 1) : Int × Int × Int) := by
      have h := enumFrom_map_of_pos in_planes out_planes
        (List.replicate k (1 : Int)) 0
      rw [h, List.map_replicate]
      rfl
    refine congrArg₂ List.cons ?_ htail
    simp [pyAndOr, hin]

/-- Witness for the amended C9 with the widths used by the WRN-70-16
first group (16 to 160) and the PreActResNet second layer (64 to 128). -/
theorem blockGroup_specs_witness :
    _BlockGroup.blockSpecs 3 16 160 2 =
      [(16, 160, 2), (160, 160, 1), (160, 160, 1)] ∧
    DMPreActResNet.layerSpecs 64 128 2 2 = [(64, 128, 2), (128, 128, 1)] := by
  have h := blockGroup_specs 3 16 160 2 (by decide) (by decide)
  have h' := blockGroup_specs 2 64 128 2 (by decide) (by decide)
  exact ⟨by rw [h.1 (by decide)]; rfl, by rw [h'.2.1]; rfl⟩
